import Mathlib

/-
  Shallow embedding of src/mucore/src/muEdge.c (OneMu edge detection core).

  Image buffers are modelled as total functions Nat -> Nat: position p holds
  the byte at flat offset p from the image data pointer.  Offsets at or beyond
  width*height model whatever memory lies past the caller-allocated buffer
  (the C code performs such reads; see the bounds theorems below).
  MU_16S / MU_32S intermediate arithmetic is modelled over Int: for byte-valued
  inputs every intermediate in the C code fits its declared type, so the Int
  model is exact.
-/

/-- Status codes of the core, following section 6 of the documentation:
success models MU_ERR_SUCCESS, channelUnsupported models the
MU_ERR_NOT_SUPPORT returned by each operator's channel test, and
depthMismatch models the failure value of the depth validation gate. -/
inductive muError where
  | success
  | depthMismatch
  | channelUnsupported
  deriving DecidableEq

/-- Image container, modelling muImage_t: width, height, channel count,
declared bit depth, and the byte memory reachable from the data pointer. -/
structure muImage where
  width : Nat
  height : Nat
  channels : Nat
  depth : Nat
  imagedata : Nat → Nat

/-- Abstract tag value for the 8-bit unsigned depth; its numeric value is
immaterial to the model. -/
def MU_IMG_DEPTH_8U : Nat := 1

/-- Modelled from the spec: the body of muCheckDepth is declared in muCore.h
and is not part of this repository snapshot.  Per section 4.1 of the
documentation, the validation gate verifies that both images report the
required 8-bit depth and fails with DepthMismatch otherwise, with no side
effects.  (The channel test is performed separately by each operator, as in
muEdge.c.) -/
def muCheckDepth (src dst : muImage) : muError :=
  if src.depth = MU_IMG_DEPTH_8U ∧ dst.depth = MU_IMG_DEPTH_8U then
    muError.success
  else
    muError.depthMismatch

/-- A single store out[p] = v into a byte buffer. -/
def writeBuf (buf : Nat → Nat) (p v : Nat) : Nat → Nat :=
  fun q => if q = p then v else buf q

/-- The window origins iterated by all three software kernels, in C order:
for(j=0; j<(height-1); j++) for(i=0; i<(width-1); i++). -/
def windowOrigins (W H : Nat) : List (Nat × Nat) :=
  (List.range (H - 1)).flatMap (fun j => (List.range (W - 1)).map (fun i => (i, j)))

/-- The common loop shell of the three kernels: at each window origin (i,j)
compute index = i + width*j and store the response at out[index+width+1]. -/
def runKernel (W H : Nat) (dst : Nat → Nat) (resp : Nat → Nat) : Nat → Nat :=
  (windowOrigins W H).foldl
    (fun d ij => writeBuf d (ij.1 + W * ij.2 + W + 1) (resp (ij.1 + W * ij.2)))
    dst

/-- Laplace mask 1 body (muEdge.c lines 63-67):
temp = abs((in[index+1]+in[index+width]+in[index+width+2]+in[index+(width<<1)+1])
           -(in[index+width+1]<<2)), clamped to 255. -/
def laplaceResponse1 (src : Nat → Nat) (W index : Nat) : Nat :=
  min 255
    ((((src (index + 1) : Int) + (src (index + W) : Int) + (src (index + W + 2) : Int)
        + (src (index + 2 * W + 1) : Int))
      - 4 * (src (index + W + 1) : Int)).natAbs)

/-- Laplace mask 2 body (muEdge.c lines 77-82):
temp = abs((in[index]+in[index+1]+in[index+2]+in[index+width]+in[index+width+2]
            +in[index+(width<<1)]+in[index+(width<<1)+1]+in[index+(width<<1)+2])
           -(in[index+width+1]<<3)), clamped to 255. -/
def laplaceResponse2 (src : Nat → Nat) (W index : Nat) : Nat :=
  min 255
    ((((src index : Int) + (src (index + 1) : Int) + (src (index + 2) : Int)
        + (src (index + W) : Int) + (src (index + W + 2) : Int)
        + (src (index + 2 * W) : Int) + (src (index + 2 * W + 1) : Int)
        + (src (index + 2 * W + 2) : Int))
      - 8 * (src (index + W + 1) : Int)).natAbs)

/-- Sobel body (muEdge.c lines 147-160): gx, gy and temp = abs(gx)+abs(gy)
clamped into [0,255]. -/
def sobelResponse (src : Nat → Nat) (W index : Nat) : Nat :=
  min 255
    (((((src index : Int) + 2 * (src (index + 1) : Int) + (src (index + 2) : Int))
        - ((src (index + 2 * W) : Int) + 2 * (src (index + 2 * W + 1) : Int)
            + (src (index + 2 * W + 2) : Int))).natAbs)
      + ((((src index : Int) + 2 * (src (index + W) : Int) + (src (index + 2 * W) : Int))
        - ((src (index + 2) : Int) + 2 * (src (index + W + 2) : Int)
            + (src (index + 2 * W + 2) : Int))).natAbs))

/-- Prewitt body (muEdge.c lines 216-229): same shape as Sobel without the
2x center weights. -/
def prewittResponse (src : Nat → Nat) (W index : Nat) : Nat :=
  min 255
    (((((src index : Int) + (src (index + 1) : Int) + (src (index + 2) : Int))
        - ((src (index + 2 * W) : Int) + (src (index + 2 * W + 1) : Int)
            + (src (index + 2 * W + 2) : Int))).natAbs)
      + ((((src index : Int) + (src (index + W) : Int) + (src (index + 2 * W) : Int))
        - ((src (index + 2) : Int) + (src (index + W + 2) : Int)
            + (src (index + 2 * W + 2) : Int))).natAbs))

/-- muLaplace (muEdge.c lines 30-88): depth gate, channel gate, then the
switch on the mask selector; an unrecognized selector falls through the
switch and returns success having written nothing. -/
def muLaplace (src dst : muImage) (selection : Nat) : muError × (Nat → Nat) :=
  if muCheckDepth src dst ≠ muError.success then
    (muCheckDepth src dst, dst.imagedata)
  else if src.channels ≠ 1 ∨ dst.channels ≠ 1 then
    (muError.channelUnsupported, dst.imagedata)
  else if selection = 1 then
    (muError.success,
      runKernel src.width src.height dst.imagedata
        (laplaceResponse1 src.imagedata src.width))
  else if selection = 2 then
    (muError.success,
      runKernel src.width src.height dst.imagedata
        (laplaceResponse2 src.imagedata src.width))
  else
    (muError.success, dst.imagedata)

/-- muSobel software path (muEdge.c lines 108-165); the HISI hardware shunt
is compiled out in the portable build and is not part of the model. -/
def muSobel (src dst : muImage) : muError × (Nat → Nat) :=
  if muCheckDepth src dst ≠ muError.success then
    (muCheckDepth src dst, dst.imagedata)
  else if src.channels ≠ 1 ∨ dst.channels ≠ 1 then
    (muError.channelUnsupported, dst.imagedata)
  else
    (muError.success,
      runKernel src.width src.height dst.imagedata
        (sobelResponse src.imagedata src.width))

/-- muPrewitt (muEdge.c lines 186-234). -/
def muPrewitt (src dst : muImage) : muError × (Nat → Nat) :=
  if muCheckDepth src dst ≠ muError.success then
    (muCheckDepth src dst, dst.imagedata)
  else if src.channels ≠ 1 ∨ dst.channels ≠ 1 then
    (muError.channelUnsupported, dst.imagedata)
  else
    (muError.success,
      runKernel src.width src.height dst.imagedata
        (prewittResponse src.imagedata src.width))

/-- muCanny (muEdge.c lines 254-264): the depth check is commented out in the
source; the body is exactly a return of MU_ERR_SUCCESS, touching neither the
destination nor the angle buffer. -/
def muCanny (src dst ang : muImage) : muError × (Nat → Nat) × (Nat → Nat) :=
  (muError.success, dst.imagedata, ang.imagedata)

/-- Source-read offsets (relative to index = i + width*j) of Laplace mask 1. -/
def laplace1Offsets (W : Nat) : List Nat :=
  [1, W, W + 2, 2 * W + 1, W + 1]

/-- Source-read offsets of Laplace mask 2. -/
def laplace2Offsets (W : Nat) : List Nat :=
  [0, 1, 2, W, W + 2, 2 * W, 2 * W + 1, 2 * W + 2, W + 1]

/-- Source-read offsets of the Sobel kernel. -/
def sobelOffsets (W : Nat) : List Nat :=
  [0, 1, 2, 2 * W, 2 * W + 1, 2 * W + 2, W, W + 2]

/-- Source-read offsets of the Prewitt kernel. -/
def prewittOffsets (W : Nat) : List Nat :=
  [0, 1, 2, 2 * W, 2 * W + 1, 2 * W + 2, W, W + 2]

/-- Every flat source index read by a kernel with the given offsets over the
iterated window origins. -/
def readIndices (W H : Nat) (offs : List Nat) : List Nat :=
  (windowOrigins W H).flatMap (fun ij => offs.map (fun o => ij.1 + W * ij.2 + o))

/-- Pixel accessor in image coordinates, used by the specification-side
formulas: column x, row y, row-major with stride W. -/
def pixel (src : Nat → Nat) (W x y : Nat) : Nat :=
  src (x + W * y)

/-- Specification-side Sobel formula (spec section 4.3), written over the
3x3 neighborhood anchored at window origin (i,j):
Gx = (top-left + 2 top-mid + top-right) - (bottom-left + 2 bottom-mid + bottom-right),
Gy = (top-left + 2 mid-left + bottom-left) - (top-right + 2 mid-right + bottom-right),
response = min 255 (abs Gx + abs Gy). -/
def sobelSpecResponse (src : Nat → Nat) (W i j : Nat) : Nat :=
  min 255
    ((((pixel src W i j : Int) + 2 * (pixel src W (i + 1) j : Int) + (pixel src W (i + 2) j : Int))
        - ((pixel src W i (j + 2) : Int) + 2 * (pixel src W (i + 1) (j + 2) : Int)
            + (pixel src W (i + 2) (j + 2) : Int))).natAbs
      + (((pixel src W i j : Int) + 2 * (pixel src W i (j + 1) : Int) + (pixel src W i (j + 2) : Int))
        - ((pixel src W (i + 2) j : Int) + 2 * (pixel src W (i + 2) (j + 1) : Int)
            + (pixel src W (i + 2) (j + 2) : Int))).natAbs)

/-- Specification-side Laplace selector-1 formula (spec section 4.2):
min 255 (abs (N + S + E + Wn - 4 C)) at the center one step down-right of the
window origin, N,S,E,Wn its four axis-aligned neighbors. -/
def laplaceSpec1 (src : Nat → Nat) (W i j : Nat) : Nat :=
  min 255
    ((((pixel src W (i + 1) j : Int) + (pixel src W (i + 1) (j + 2) : Int)
        + (pixel src W (i + 2) (j + 1) : Int) + (pixel src W i (j + 1) : Int))
      - 4 * (pixel src W (i + 1) (j + 1) : Int)).natAbs)

/-- Specification-side Laplace selector-2 formula (spec section 4.2):
min 255 (abs (sum of all 8 neighbors - 8 C)). -/
def laplaceSpec2 (src : Nat → Nat) (W i j : Nat) : Nat :=
  min 255
    ((((pixel src W i j : Int) + (pixel src W (i + 1) j : Int) + (pixel src W (i + 2) j : Int)
        + (pixel src W i (j + 1) : Int) + (pixel src W (i + 2) (j + 1) : Int)
        + (pixel src W i (j + 2) : Int) + (pixel src W (i + 1) (j + 2) : Int)
        + (pixel src W (i + 2) (j + 2) : Int))
      - 8 * (pixel src W (i + 1) (j + 1) : Int)).natAbs)

/-- Flat indices of the interior destination pixels of a W x H image: the
pixels whose full 3x3 source neighborhood lies within bounds. -/
def interiorIndices (W H : Nat) : List Nat :=
  (List.range (H - 2)).flatMap (fun y => (List.range (W - 2)).map (fun x => (x + 1) + W * (y + 1)))

/-- Unfolding helper: no store in a fold of writes can change a location no
write targets. -/
lemma foldl_writeBuf_ne (pos val : Nat × Nat → Nat) (L : List (Nat × Nat)) (dst : Nat → Nat)
    (q : Nat) (h : ∀ x ∈ L, pos x ≠ q) :
    (L.foldl (fun d ij => writeBuf d (pos ij) (val ij)) dst) q = dst q := by
  induction L generalizing dst with
  | nil => rfl
  | cons a t ih =>
      rw [List.foldl_cons, ih _ (fun x hx => h x (List.mem_cons_of_mem a hx))]
      exact if_neg (Ne.symm (h a (List.mem_cons_self a t)))

/-- Unfolding helper: when the targeted locations identify the iteration
elements, the folded buffer holds, at the location of any iterated element,
that element's value. -/
lemma foldl_writeBuf_eq (pos val : Nat × Nat → Nat) (L : List (Nat × Nat)) (dst : Nat → Nat)
    (o : Nat × Nat) (ho : o ∈ L) (hinj : ∀ x ∈ L, pos x = pos o → x = o) :
    (L.foldl (fun d ij => writeBuf d (pos ij) (val ij)) dst) (pos o) = val o := by
  induction L generalizing dst with
  | nil => cases ho
  | cons a t ih =>
      rw [List.foldl_cons]
      by_cases hot : o ∈ t
      · exact ih _ hot (fun x hx hp => hinj x (List.mem_cons_of_mem a hx) hp)
      · have hoa : o = a := by
          rcases List.mem_cons.mp ho with h | h
          · exact h
          · exact absurd h hot
        subst hoa
        rw [foldl_writeBuf_ne pos val t _ (pos o)
          (fun x hx hp => hot ((hinj x (List.mem_cons_of_mem o hx) hp) ▸ hx))]
        exact if_pos rfl

/-- The window origins are exactly the pairs below (width-1, height-1). -/
lemma windowOrigins_mem (W H i j : Nat) :
    (i, j) ∈ windowOrigins W H ↔ i < W - 1 ∧ j < H - 1 := by
  simp only [windowOrigins, List.mem_flatMap, List.mem_map, List.mem_range, Prod.mk.injEq]
  constructor
  · rintro ⟨j', hj', i', hi', rfl, rfl⟩
    exact ⟨hi', hj'⟩
  · rintro ⟨hi, hj⟩
    exact ⟨j, hj, i, hi, rfl, rfl⟩

/-- The kernel loop writes to pairwise distinct locations, so the final
buffer at the location targeted from origin (i,j) is the response at (i,j). -/
lemma runKernel_get (W H : Nat) (dst resp : Nat → Nat) (i j : Nat)
    (hi : i < W - 1) (hj : j < H - 1) :
    runKernel W H dst resp (i + W * j + W + 1) = resp (i + W * j) := by
  have hW : 1 < W := by omega
  have hmem : (i, j) ∈ windowOrigins W H := (windowOrigins_mem W H i j).mpr ⟨hi, hj⟩
  have hinj : ∀ x ∈ windowOrigins W H,
      x.1 + W * x.2 + W + 1 = (i, j).1 + W * (i, j).2 + W + 1 → x = (i, j) := by
    rintro ⟨i', j'⟩ hx hp
    obtain ⟨hi', hj'⟩ := (windowOrigins_mem W H i' j').mp hx
    have hsum : i' + W * j' = i + W * j :=
      Nat.add_right_cancel (Nat.add_right_cancel hp)
    have hmod : (i' + W * j') % W = (i + W * j) % W := by rw [hsum]
    rw [Nat.add_mul_mod_self_left, Nat.add_mul_mod_self_left,
        Nat.mod_eq_of_lt (by omega), Nat.mod_eq_of_lt (by omega)] at hmod
    subst hmod
    have hj2 : j' = j := Nat.eq_of_mul_eq_mul_left (by omega)
      (Nat.add_left_cancel hsum)
    rw [hj2]
  exact foldl_writeBuf_eq (fun ij => ij.1 + W * ij.2 + W + 1)
    (fun ij => resp (ij.1 + W * ij.2)) (windowOrigins W H) dst (i, j) hmem hinj

/-- With a single row or a single column of pixels the iteration space of
window origins is empty and the kernel loop is the identity. -/
lemma runKernel_empty (W H : Nat) (dst resp : Nat → Nat) (h : W = 1 ∨ H = 1) :
    runKernel W H dst resp = dst := by
  funext q
  apply foldl_writeBuf_ne
  rintro ⟨i', j'⟩ hx
  obtain ⟨hi', hj'⟩ := (windowOrigins_mem W H i' j').mp hx
  intro _
  rcases h with h | h <;> omega

/-- Row-major flat addresses of in-bounds coordinates stay below W*H. -/
lemma flat_lt (W H a b : Nat) (ha : a < W) (hb : b < H) : a + W * b < W * H :=
  calc a + W * b < W + W * b := by omega
    _ = W * (b + 1) := by ring
    _ ≤ W * H := Nat.mul_le_mul_left W hb

/-- On images passing both validation gates, muSobel runs its kernel loop. -/
lemma muSobel_valid (src dst : muImage)
    (hsd : src.depth = MU_IMG_DEPTH_8U) (hdd : dst.depth = MU_IMG_DEPTH_8U)
    (hsc : src.channels = 1) (hdc : dst.channels = 1) :
    muSobel src dst = (muError.success,
      runKernel src.width src.height dst.imagedata (sobelResponse src.imagedata src.width)) := by
  simp [muSobel, muCheckDepth, hsd, hdd, hsc, hdc]

/-- On images passing both validation gates, muPrewitt runs its kernel loop. -/
lemma muPrewitt_valid (src dst : muImage)
    (hsd : src.depth = MU_IMG_DEPTH_8U) (hdd : dst.depth = MU_IMG_DEPTH_8U)
    (hsc : src.channels = 1) (hdc : dst.channels = 1) :
    muPrewitt src dst = (muError.success,
      runKernel src.width src.height dst.imagedata (prewittResponse src.imagedata src.width)) := by
  simp [muPrewitt, muCheckDepth, hsd, hdd, hsc, hdc]

/-- On images passing both validation gates, muLaplace with selector 1 runs
the mask-1 kernel loop. -/
lemma muLaplace_valid1 (src dst : muImage)
    (hsd : src.depth = MU_IMG_DEPTH_8U) (hdd : dst.depth = MU_IMG_DEPTH_8U)
    (hsc : src.channels = 1) (hdc : dst.channels = 1) :
    muLaplace src dst 1 = (muError.success,
      runKernel src.width src.height dst.imagedata (laplaceResponse1 src.imagedata src.width)) := by
  simp [muLaplace, muCheckDepth, hsd, hdd, hsc, hdc]

/-- On images passing both validation gates, muLaplace with selector 2 runs
the mask-2 kernel loop. -/
lemma muLaplace_valid2 (src dst : muImage)
    (hsd : src.depth = MU_IMG_DEPTH_8U) (hdd : dst.depth = MU_IMG_DEPTH_8U)
    (hsc : src.channels = 1) (hdc : dst.channels = 1) :
    muLaplace src dst 2 = (muError.success,
      runKernel src.width src.height dst.imagedata (laplaceResponse2 src.imagedata src.width)) := by
  simp [muLaplace, muCheckDepth, hsd, hdd, hsc, hdc]

/-- The flat-index Sobel body coincides with the coordinate form of the
specification at every window origin. -/
lemma sobelResponse_eq_spec (src : Nat → Nat) (W i j : Nat) :
    sobelResponse src W (i + W * j) = sobelSpecResponse src W i j := by
  unfold sobelResponse sobelSpecResponse pixel
  rw [show i + W * j + 2 * W + 2 = i + 2 + W * (j + 2) from by ring,
      show i + W * j + 2 * W + 1 = i + 1 + W * (j + 2) from by ring,
      show i + W * j + 2 * W = i + W * (j + 2) from by ring,
      show i + W * j + W + 2 = i + 2 + W * (j + 1) from by ring,
      show i + W * j + W = i + W * (j + 1) from by ring,
      show i + W * j + 2 = i + 2 + W * j from by ring,
      show i + W * j + 1 = i + 1 + W * j from by ring]

/-- The flat-index Laplace mask-1 body coincides with the coordinate form of
the specification at every window origin. -/
lemma laplaceResponse1_eq_spec (src : Nat → Nat) (W i j : Nat) :
    laplaceResponse1 src W (i + W * j) = laplaceSpec1 src W i j := by
  unfold laplaceResponse1 laplaceSpec1 pixel
  rw [show i + W * j + 2 * W + 1 = i + 1 + W * (j + 2) from by ring,
      show i + W * j + W + 2 = i + 2 + W * (j + 1) from by ring,
      show i + W * j + W + 1 = i + 1 + W * (j + 1) from by ring,
      show i + W * j + W = i + W * (j + 1) from by ring,
      show i + W * j + 1 = i + 1 + W * j from by ring]
  congr 1
  congr 1
  ring

/-- The flat-index Laplace mask-2 body coincides with the coordinate form of
the specification at every window origin. -/
lemma laplaceResponse2_eq_spec (src : Nat → Nat) (W i j : Nat) :
    laplaceResponse2 src W (i + W * j) = laplaceSpec2 src W i j := by
  unfold laplaceResponse2 laplaceSpec2 pixel
  rw [show i + W * j + 2 * W + 2 = i + 2 + W * (j + 2) from by ring,
      show i + W * j + 2 * W + 1 = i + 1 + W * (j + 2) from by ring,
      show i + W * j + 2 * W = i + W * (j + 2) from by ring,
      show i + W * j + W + 2 = i + 2 + W * (j + 1) from by ring,
      show i + W * j + W + 1 = i + 1 + W * (j + 1) from by ring,
      show i + W * j + W = i + W * (j + 1) from by ring,
      show i + W * j + 2 = i + 2 + W * j from by ring,
      show i + W * j + 1 = i + 1 + W * j from by ring]

/-- On a buffer holding the constant byte c at every in-bounds address, the
Sobel body vanishes at every window origin whose full 3x3 neighborhood is in
bounds. -/
lemma sobelResponse_const (src : Nat → Nat) (W H c i j : Nat)
    (hc : ∀ p, p < W * H → src p = c) (hi : i + 2 < W) (hj : j + 2 < H) :
    sobelResponse src W (i + W * j) = 0 := by
  rw [sobelResponse_eq_spec]
  unfold sobelSpecResponse pixel
  rw [hc (i + W * j) (flat_lt W H i j (by omega) (by omega)),
      hc (i + 1 + W * j) (flat_lt W H (i + 1) j (by omega) (by omega)),
      hc (i + 2 + W * j) (flat_lt W H (i + 2) j (by omega) (by omega)),
      hc (i + W * (j + 1)) (flat_lt W H i (j + 1) (by omega) (by omega)),
      hc (i + 2 + W * (j + 1)) (flat_lt W H (i + 2) (j + 1) (by omega) (by omega)),
      hc (i + W * (j + 2)) (flat_lt W H i (j + 2) (by omega) (by omega)),
      hc (i + 1 + W * (j + 2)) (flat_lt W H (i + 1) (j + 2) (by omega) (by omega)),
      hc (i + 2 + W * (j + 2)) (flat_lt W H (i + 2) (j + 2) (by omega) (by omega))]
  simp

/-- Same as sobelResponse_const for the Prewitt body. -/
lemma prewittResponse_const (src : Nat → Nat) (W H c i j : Nat)
    (hc : ∀ p, p < W * H → src p = c) (hi : i + 2 < W) (hj : j + 2 < H) :
    prewittResponse src W (i + W * j) = 0 := by
  unfold prewittResponse
  rw [show i + W * j + 2 * W + 2 = i + 2 + W * (j + 2) from by ring,
      show i + W * j + 2 * W + 1 = i + 1 + W * (j + 2) from by ring,
      show i + W * j + 2 * W = i + W * (j + 2) from by ring,
      show i + W * j + W + 2 = i + 2 + W * (j + 1) from by ring,
      show i + W * j + W = i + W * (j + 1) from by ring,
      show i + W * j + 2 = i + 2 + W * j from by ring,
      show i + W * j + 1 = i + 1 + W * j from by ring]
  rw [hc (i + W * j) (flat_lt W H i j (by omega) (by omega)),
      hc (i + 1 + W * j) (flat_lt W H (i + 1) j (by omega) (by omega)),
      hc (i + 2 + W * j) (flat_lt W H (i + 2) j (by omega) (by omega)),
      hc (i + W * (j + 1)) (flat_lt W H i (j + 1) (by omega) (by omega)),
      hc (i + 2 + W * (j + 1)) (flat_lt W H (i + 2) (j + 1) (by omega) (by omega)),
      hc (i + W * (j + 2)) (flat_lt W H i (j + 2) (by omega) (by omega)),
      hc (i + 1 + W * (j + 2)) (flat_lt W H (i + 1) (j + 2) (by omega) (by omega)),
      hc (i + 2 + W * (j + 2)) (flat_lt W H (i + 2) (j + 2) (by omega) (by omega))]
  simp

/-- Same as sobelResponse_const for the Laplace mask-1 body. -/
lemma laplaceResponse1_const (src : Nat → Nat) (W H c i j : Nat)
    (hc : ∀ p, p < W * H → src p = c) (hi : i + 2 < W) (hj : j + 2 < H) :
    laplaceResponse1 src W (i + W * j) = 0 := by
  rw [laplaceResponse1_eq_spec]
  unfold laplaceSpec1 pixel
  rw [hc (i + 1 + W * j) (flat_lt W H (i + 1) j (by omega) (by omega)),
      hc (i + 1 + W * (j + 2)) (flat_lt W H (i + 1) (j + 2) (by omega) (by omega)),
      hc (i + 2 + W * (j + 1)) (flat_lt W H (i + 2) (j + 1) (by omega) (by omega)),
      hc (i + W * (j + 1)) (flat_lt W H i (j + 1) (by omega) (by omega)),
      hc (i + 1 + W * (j + 1)) (flat_lt W H (i + 1) (j + 1) (by omega) (by omega))]
  have h4 : ((c : Int) + (c : Int) + (c : Int) + (c : Int)) - 4 * (c : Int) = 0 := by ring
  rw [h4]
  simp

/-- Same as sobelResponse_const for the Laplace mask-2 body. -/
lemma laplaceResponse2_const (src : Nat → Nat) (W H c i j : Nat)
    (hc : ∀ p, p < W * H → src p = c) (hi : i + 2 < W) (hj : j + 2 < H) :
    laplaceResponse2 src W (i + W * j) = 0 := by
  rw [laplaceResponse2_eq_spec]
  unfold laplaceSpec2 pixel
  rw [hc (i + W * j) (flat_lt W H i j (by omega) (by omega)),
      hc (i + 1 + W * j) (flat_lt W H (i + 1) j (by omega) (by omega)),
      hc (i + 2 + W * j) (flat_lt W H (i + 2) j (by omega) (by omega)),
      hc (i + W * (j + 1)) (flat_lt W H i (j + 1) (by omega) (by omega)),
      hc (i + 2 + W * (j + 1)) (flat_lt W H (i + 2) (j + 1) (by omega) (by omega)),
      hc (i + W * (j + 2)) (flat_lt W H i (j + 2) (by omega) (by omega)),
      hc (i + 1 + W * (j + 2)) (flat_lt W H (i + 1) (j + 2) (by omega) (by omega)),
      hc (i + 2 + W * (j + 2)) (flat_lt W H (i + 2) (j + 2) (by omega) (by omega)),
      hc (i + 1 + W * (j + 1)) (flat_lt W H (i + 1) (j + 1) (by omega) (by omega))]
  have h8 : ((c : Int) + (c : Int) + (c : Int) + (c : Int) + (c : Int) + (c : Int) + (c : Int)
      + (c : Int)) - 8 * (c : Int) = 0 := by ring
  rw [h8]
  simp

/-- On images passing both validation gates, muLaplace with an unrecognized
selector falls through the switch: success and no store. -/
lemma muLaplace_valid_other (src dst : muImage) (sel : Nat)
    (hsd : src.depth = MU_IMG_DEPTH_8U) (hdd : dst.depth = MU_IMG_DEPTH_8U)
    (hsc : src.channels = 1) (hdc : dst.channels = 1)
    (h1 : sel ≠ 1) (h2 : sel ≠ 2) :
    muLaplace src dst sel = (muError.success, dst.imagedata) := by
  have hcd : muCheckDepth src dst = muError.success := by
    unfold muCheckDepth
    exact if_pos ⟨hsd, hdd⟩
  unfold muLaplace
  rw [hcd, if_neg (show ¬muError.success ≠ muError.success from by decide),
      if_neg (show ¬(src.channels ≠ 1 ∨ dst.channels ≠ 1) from by simp [hsc, hdc]),
      if_neg h1, if_neg h2]

/-- A 2x2 all-zero valid source image; the memory beyond its 4 bytes is also
zero. -/
def img22a : muImage := ⟨2, 2, 1, MU_IMG_DEPTH_8U, fun _ => 0⟩

/-- A 2x2 valid source whose 4-byte buffer is identical to the one of img22a
but whose memory at flat offset 6, beyond the buffer, holds 100. -/
def img22b : muImage := ⟨2, 2, 1, MU_IMG_DEPTH_8U, fun p => if p = 6 then 100 else 0⟩

/-- A 2x2 valid destination pre-filled with the sentinel byte 7. -/
def img22dst : muImage := ⟨2, 2, 1, MU_IMG_DEPTH_8U, fun _ => 7⟩

/-- The 4x4 valid source of the concrete Sobel scenario: a single bright
pixel 255 at column 1, row 1 (flat offset 5), zero elsewhere. -/
def img44src : muImage := ⟨4, 4, 1, MU_IMG_DEPTH_8U, fun p => if p = 5 then 255 else 0⟩

/-- A 4x4 valid destination pre-filled with the sentinel byte 99. -/
def img44dst : muImage := ⟨4, 4, 1, MU_IMG_DEPTH_8U, fun _ => 99⟩

/-- A 4x4 single-channel image whose declared depth is not the 8-bit one. -/
def imgBadDepth : muImage := ⟨4, 4, 1, MU_IMG_DEPTH_8U + 1, fun _ => 0⟩

/-- A 4x4 valid image. -/
def imgOk4 : muImage := ⟨4, 4, 1, MU_IMG_DEPTH_8U, fun _ => 0⟩

/-- A 4x4 8-bit image with three channels. -/
def imgBadCh : muImage := ⟨4, 4, 3, MU_IMG_DEPTH_8U, fun _ => 0⟩

/-- A 3x3 valid source holding the ramp bytes 0..8. -/
def img33ramp : muImage := ⟨3, 3, 1, MU_IMG_DEPTH_8U, fun p => p⟩

/-- A 3x3 valid zeroed destination. -/
def img33dst : muImage := ⟨3, 3, 1, MU_IMG_DEPTH_8U, fun _ => 0⟩

/-- A 3x3 valid source holding the constant byte 5 everywhere. -/
def img33uniform : muImage := ⟨3, 3, 1, MU_IMG_DEPTH_8U, fun _ => 5⟩

/-- A 1x5 valid source (degenerate width). -/
def img15src : muImage := ⟨1, 5, 1, MU_IMG_DEPTH_8U, fun _ => 3⟩

/-- A 1x5 valid destination pre-filled with the sentinel byte 9. -/
def img15dst : muImage := ⟨1, 5, 1, MU_IMG_DEPTH_8U, fun _ => 9⟩

/-- C1, refuted (code bug): already on a 2x2 image (W = H = 2), the window
origin (0,0) makes the kernels read flat source indices up to 2W+2 = 6
(Sobel, Prewitt, Laplace mask 2) and 2W+1 = 5 (Laplace mask 1), all at or
beyond the 4-byte W*H buffer, so the out-of-bounds branch of a bounds-checked
read is reachable.  Concretely, two source images whose 4 in-bounds bytes
coincide produce different muSobel outputs, which is possible only because
the code reads past the buffer. -/
theorem muEdge_read_out_of_bounds :
    (img22a.imagedata 0 = img22b.imagedata 0 ∧ img22a.imagedata 1 = img22b.imagedata 1 ∧
      img22a.imagedata 2 = img22b.imagedata 2 ∧ img22a.imagedata 3 = img22b.imagedata 3) ∧
    (muSobel img22a img22dst).2 3 ≠ (muSobel img22b img22dst).2 3 ∧
    (6 ∈ readIndices 2 2 (sobelOffsets 2) ∧ ¬6 < 2 * 2) ∧
    (5 ∈ readIndices 2 2 (laplace1Offsets 2) ∧ ¬5 < 2 * 2) ∧
    (6 ∈ readIndices 2 2 (laplace2Offsets 2) ∧ ¬6 < 2 * 2) ∧
    (6 ∈ readIndices 2 2 (prewittOffsets 2) ∧ ¬6 < 2 * 2) := by
  decide

/-- C2, refuted (code bug): on a 2x2 image every operator's software path
overwrites the sentinel at flat index 3, which is position (1,1), in both the
last row and the last column, while the top row and left column (flat 0,1,2)
do keep the sentinel. -/
theorem muEdge_writes_last_row_col :
    img22dst.imagedata 3 = 7 ∧ 3 = 1 + 2 * 1 ∧
    (muLaplace img22a img22dst 1).2 3 = 0 ∧
    (muLaplace img22a img22dst 2).2 3 = 0 ∧
    (muSobel img22a img22dst).2 3 = 0 ∧
    (muPrewitt img22a img22dst).2 3 = 0 ∧
    (muSobel img22a img22dst).2 0 = 7 ∧
    (muSobel img22a img22dst).2 1 = 7 ∧
    (muSobel img22a img22dst).2 2 = 7 := by
  decide

/-- C3, counterexample: muCanny performs no validation at all (its depth
check is commented out in the source), so on a source whose depth is not the
8-bit one it returns success, not the depth-mismatch error the claim
demands of every operator. -/
theorem muCanny_no_validation_counterexample :
    imgBadDepth.depth ≠ MU_IMG_DEPTH_8U ∧
    muCanny imgBadDepth imgOk4 imgOk4 = (muError.success, imgOk4.imagedata, imgOk4.imagedata) ∧
    muError.success ≠ muError.depthMismatch :=
  ⟨by decide, rfl, by decide⟩

/-- C3, amended: muLaplace, muSobel and muPrewitt return DepthMismatch when
either image's depth is not the 8-bit one (depth is checked first), return
ChannelUnsupported when the depths match but either channel count differs
from 1, and in both cases leave the destination buffer unchanged; muCanny,
however, validates nothing and returns success with both buffers unchanged. -/
theorem muEdge_validation_amended (src dst ang : muImage) (sel : Nat) :
    ((src.depth ≠ MU_IMG_DEPTH_8U ∨ dst.depth ≠ MU_IMG_DEPTH_8U) →
      muLaplace src dst sel = (muError.depthMismatch, dst.imagedata) ∧
      muSobel src dst = (muError.depthMismatch, dst.imagedata) ∧
      muPrewitt src dst = (muError.depthMismatch, dst.imagedata)) ∧
    ((src.depth = MU_IMG_DEPTH_8U ∧ dst.depth = MU_IMG_DEPTH_8U ∧
        (src.channels ≠ 1 ∨ dst.channels ≠ 1)) →
      muLaplace src dst sel = (muError.channelUnsupported, dst.imagedata) ∧
      muSobel src dst = (muError.channelUnsupported, dst.imagedata) ∧
      muPrewitt src dst = (muError.channelUnsupported, dst.imagedata)) ∧
    muCanny src dst ang = (muError.success, dst.imagedata, ang.imagedata) := by
  refine ⟨?_, ?_, rfl⟩
  · intro hd
    have hcd : muCheckDepth src dst = muError.depthMismatch := by
      unfold muCheckDepth
      rw [if_neg]
      tauto
    refine ⟨?_, ?_, ?_⟩
    · unfold muLaplace
      rw [hcd, if_pos (show muError.depthMismatch ≠ muError.success from by decide)]
    · unfold muSobel
      rw [hcd, if_pos (show muError.depthMismatch ≠ muError.success from by decide)]
    · unfold muPrewitt
      rw [hcd, if_pos (show muError.depthMismatch ≠ muError.success from by decide)]
  · rintro ⟨hsd, hdd, hch⟩
    have hcd : muCheckDepth src dst = muError.success := by
      unfold muCheckDepth
      exact if_pos ⟨hsd, hdd⟩
    refine ⟨?_, ?_, ?_⟩
    · unfold muLaplace
      rw [hcd, if_neg (show ¬muError.success ≠ muError.success from by decide), if_pos hch]
    · unfold muSobel
      rw [hcd, if_neg (show ¬muError.success ≠ muError.success from by decide), if_pos hch]
    · unfold muPrewitt
      rw [hcd, if_neg (show ¬muError.success ≠ muError.success from by decide), if_pos hch]

/-- Witness for muEdge_validation_amended at concrete inputs. -/
theorem muEdge_validation_amended_witness :
    muLaplace imgBadDepth imgOk4 1 = (muError.depthMismatch, imgOk4.imagedata) ∧
    muSobel imgOk4 imgBadCh = (muError.channelUnsupported, imgBadCh.imagedata) :=
  ⟨((muEdge_validation_amended imgBadDepth imgOk4 imgOk4 1).1 (Or.inl (by decide))).1,
    ((muEdge_validation_amended imgOk4 imgBadCh imgOk4 1).2.1 ⟨rfl, rfl, Or.inr (by decide)⟩).2.1⟩

/-- C4, counterexample: on the 4x4 image with a single bright pixel at (1,1)
there is no interior pixel that alone carries a nonzero Sobel response with
all other interior pixels zero: three interior pixels respond. -/
theorem muSobel_bright_pixel_counterexample :
    ¬∃ a, a ∈ interiorIndices 4 4 ∧ (muSobel img44src img44dst).2 a ≠ 0 ∧
      (∀ b ∈ interiorIndices 4 4, b ≠ a → (muSobel img44src img44dst).2 b = 0) := by
  decide

/-- C4, amended: on the 4x4 image with a single bright pixel 255 at (1,1),
muSobel yields a nonzero (saturated, 255) response at each of the three
interior pixels adjacent to (1,1), namely (2,1), (1,2) and (2,2) (flat 6, 9,
10), and a zero response at the remaining interior pixel, (1,1) itself
(flat 5), where the bright pixel sits at the zero-weighted window center. -/
theorem muSobel_bright_pixel_amended :
    interiorIndices 4 4 = [5, 6, 9, 10] ∧
    (muSobel img44src img44dst).2 5 = 0 ∧
    (muSobel img44src img44dst).2 6 = 255 ∧
    (muSobel img44src img44dst).2 9 = 255 ∧
    (muSobel img44src img44dst).2 10 = 255 := by
  decide

/-- C5, confirmed: on validated images, for every window origin (i,j)
iterated by the software path, the destination byte one row and one column
inset from (i,j) equals the specification formula min 255 (abs Gx + abs Gy)
over the 3x3 neighborhood anchored at (i,j), and the targeted flat address
is exactly that of pixel (i+1, j+1). -/
theorem muSobel_window_value (src dst : muImage)
    (hsd : src.depth = MU_IMG_DEPTH_8U) (hdd : dst.depth = MU_IMG_DEPTH_8U)
    (hsc : src.channels = 1) (hdc : dst.channels = 1)
    (i j : Nat) (hi : i < src.width - 1) (hj : j < src.height - 1) :
    (muSobel src dst).2 (i + src.width * j + src.width + 1)
        = sobelSpecResponse src.imagedata src.width i j ∧
    i + src.width * j + src.width + 1 = (i + 1) + src.width * (j + 1) := by
  constructor
  · rw [muSobel_valid src dst hsd hdd hsc hdc]
    exact (runKernel_get src.width src.height dst.imagedata
        (sobelResponse src.imagedata src.width) i j hi hj).trans
      (sobelResponse_eq_spec src.imagedata src.width i j)
  · ring

/-- Witness for muSobel_window_value at a concrete ramp image. -/
theorem muSobel_window_value_witness :
    (muSobel img33ramp img33dst).2 (0 + 3 * 0 + 3 + 1)
        = sobelSpecResponse img33ramp.imagedata 3 0 0 ∧
    0 + 3 * 0 + 3 + 1 = (0 + 1) + 3 * (0 + 1) :=
  muSobel_window_value img33ramp img33dst rfl rfl rfl rfl 0 0 (by decide) (by decide)

/-- C6, confirmed: on validated images, for every window origin (i,j), the
destination byte at the inset center equals the specification formula
min 255 (abs (N + S + E + Wn - 4 C)) for selector 1 and
min 255 (abs (sum of the 8 neighbors - 8 C)) for selector 2, and both values
are at most 255 (saturated, never wrapped). -/
theorem muLaplace_window_value (src dst : muImage)
    (hsd : src.depth = MU_IMG_DEPTH_8U) (hdd : dst.depth = MU_IMG_DEPTH_8U)
    (hsc : src.channels = 1) (hdc : dst.channels = 1)
    (i j : Nat) (hi : i < src.width - 1) (hj : j < src.height - 1) :
    (muLaplace src dst 1).2 (i + src.width * j + src.width + 1)
        = laplaceSpec1 src.imagedata src.width i j ∧
    (muLaplace src dst 2).2 (i + src.width * j + src.width + 1)
        = laplaceSpec2 src.imagedata src.width i j ∧
    laplaceSpec1 src.imagedata src.width i j ≤ 255 ∧
    laplaceSpec2 src.imagedata src.width i j ≤ 255 := by
  refine ⟨?_, ?_, ?_, ?_⟩
  · rw [muLaplace_valid1 src dst hsd hdd hsc hdc]
    exact (runKernel_get src.width src.height dst.imagedata
        (laplaceResponse1 src.imagedata src.width) i j hi hj).trans
      (laplaceResponse1_eq_spec src.imagedata src.width i j)
  · rw [muLaplace_valid2 src dst hsd hdd hsc hdc]
    exact (runKernel_get src.width src.height dst.imagedata
        (laplaceResponse2 src.imagedata src.width) i j hi hj).trans
      (laplaceResponse2_eq_spec src.imagedata src.width i j)
  · unfold laplaceSpec1
    exact min_le_left 255 _
  · unfold laplaceSpec2
    exact min_le_left 255 _

/-- Witness for muLaplace_window_value at a concrete ramp image. -/
theorem muLaplace_window_value_witness :
    (muLaplace img33ramp img33dst 1).2 (0 + 3 * 0 + 3 + 1)
        = laplaceSpec1 img33ramp.imagedata 3 0 0 ∧
    (muLaplace img33ramp img33dst 2).2 (0 + 3 * 0 + 3 + 1)
        = laplaceSpec2 img33ramp.imagedata 3 0 0 ∧
    laplaceSpec1 img33ramp.imagedata 3 0 0 ≤ 255 ∧
    laplaceSpec2 img33ramp.imagedata 3 0 0 ≤ 255 :=
  muLaplace_window_value img33ramp img33dst rfl rfl rfl rfl 0 0 (by decide) (by decide)

/-- C7, confirmed: muCanny returns success on every input whatsoever and
leaves the destination and angle buffers exactly as provided. -/
theorem muCanny_noop (src dst ang : muImage) :
    muCanny src dst ang = (muError.success, dst.imagedata, ang.imagedata) := rfl

/-- C8, confirmed: on validated images, every mask selector other than 1 or 2
makes muLaplace return success with the destination buffer untouched. -/
theorem muLaplace_unknown_selector_noop (src dst : muImage) (sel : Nat)
    (hsd : src.depth = MU_IMG_DEPTH_8U) (hdd : dst.depth = MU_IMG_DEPTH_8U)
    (hsc : src.channels = 1) (hdc : dst.channels = 1)
    (h1 : sel ≠ 1) (h2 : sel ≠ 2) :
    muLaplace src dst sel = (muError.success, dst.imagedata) :=
  muLaplace_valid_other src dst sel hsd hdd hsc hdc h1 h2

/-- Witness for muLaplace_unknown_selector_noop with selector 3. -/
theorem muLaplace_unknown_selector_noop_witness :
    muLaplace img33ramp img33dst 3 = (muError.success, img33dst.imagedata) :=
  muLaplace_unknown_selector_noop img33ramp img33dst 3 rfl rfl rfl rfl
    (by decide) (by decide)

/-- C9, confirmed: on validated images holding one constant byte c at every
in-bounds address, all four software kernels leave a zero response at every
interior destination pixel (both coordinates at least 1 and at most
dimension minus 2, so the full 3x3 source neighborhood is in bounds). -/
theorem muEdge_uniform_zero (src dst : muImage) (c : Nat)
    (hsd : src.depth = MU_IMG_DEPTH_8U) (hdd : dst.depth = MU_IMG_DEPTH_8U)
    (hsc : src.channels = 1) (hdc : dst.channels = 1)
    (hc : ∀ p, p < src.width * src.height → src.imagedata p = c)
    (x y : Nat) (hx1 : 1 ≤ x) (hx2 : x + 1 < src.width)
    (hy1 : 1 ≤ y) (hy2 : y + 1 < src.height) :
    (muLaplace src dst 1).2 (x + src.width * y) = 0 ∧
    (muLaplace src dst 2).2 (x + src.width * y) = 0 ∧
    (muSobel src dst).2 (x + src.width * y) = 0 ∧
    (muPrewitt src dst).2 (x + src.width * y) = 0 := by
  obtain ⟨i, rfl⟩ : ∃ i, x = i + 1 := ⟨x - 1, by omega⟩
  obtain ⟨j, rfl⟩ : ∃ j, y = j + 1 := ⟨y - 1, by omega⟩
  have hpos : (i + 1) + src.width * (j + 1) = i + src.width * j + src.width + 1 := by ring
  have hi : i < src.width - 1 := by omega
  have hj : j < src.height - 1 := by omega
  have hi2 : i + 2 < src.width := by omega
  have hj2 : j + 2 < src.height := by omega
  rw [hpos]
  refine ⟨?_, ?_, ?_, ?_⟩
  · rw [muLaplace_valid1 src dst hsd hdd hsc hdc]
    exact (runKernel_get src.width src.height dst.imagedata
        (laplaceResponse1 src.imagedata src.width) i j hi hj).trans
      (laplaceResponse1_const src.imagedata src.width src.height c i j hc hi2 hj2)
  · rw [muLaplace_valid2 src dst hsd hdd hsc hdc]
    exact (runKernel_get src.width src.height dst.imagedata
        (laplaceResponse2 src.imagedata src.width) i j hi hj).trans
      (laplaceResponse2_const src.imagedata src.width src.height c i j hc hi2 hj2)
  · rw [muSobel_valid src dst hsd hdd hsc hdc]
    exact (runKernel_get src.width src.height dst.imagedata
        (sobelResponse src.imagedata src.width) i j hi hj).trans
      (sobelResponse_const src.imagedata src.width src.height c i j hc hi2 hj2)
  · rw [muPrewitt_valid src dst hsd hdd hsc hdc]
    exact (runKernel_get src.width src.height dst.imagedata
        (prewittResponse src.imagedata src.width) i j hi hj).trans
      (prewittResponse_const src.imagedata src.width src.height c i j hc hi2 hj2)

/-- Witness for muEdge_uniform_zero on the constant 3x3 image. -/
theorem muEdge_uniform_zero_witness :
    (muLaplace img33uniform img33dst 1).2 (1 + 3 * 1) = 0 ∧
    (muLaplace img33uniform img33dst 2).2 (1 + 3 * 1) = 0 ∧
    (muSobel img33uniform img33dst).2 (1 + 3 * 1) = 0 ∧
    (muPrewitt img33uniform img33dst).2 (1 + 3 * 1) = 0 :=
  muEdge_uniform_zero img33uniform img33dst 5 rfl rfl rfl rfl (fun _ _ => rfl)
    1 1 (by decide) (by decide) (by decide) (by decide)

/-- C10, confirmed: on validated images with a single column (width 1) or a
single row (height 1), the iteration space of window origins is empty, so
muLaplace under any selector, muSobel and muPrewitt all return success and
leave the destination buffer unchanged. -/
theorem muEdge_degenerate_noop (src dst : muImage) (sel : Nat)
    (hsd : src.depth = MU_IMG_DEPTH_8U) (hdd : dst.depth = MU_IMG_DEPTH_8U)
    (hsc : src.channels = 1) (hdc : dst.channels = 1)
    (hwh : src.width = 1 ∨ src.height = 1) :
    muLaplace src dst sel = (muError.success, dst.imagedata) ∧
    muSobel src dst = (muError.success, dst.imagedata) ∧
    muPrewitt src dst = (muError.success, dst.imagedata) := by
  refine ⟨?_, ?_, ?_⟩
  · by_cases h1 : sel = 1
    · subst h1
      rw [muLaplace_valid1 src dst hsd hdd hsc hdc,
          runKernel_empty src.width src.height dst.imagedata _ hwh]
    · by_cases h2 : sel = 2
      · subst h2
        rw [muLaplace_valid2 src dst hsd hdd hsc hdc,
            runKernel_empty src.width src.height dst.imagedata _ hwh]
      · exact muLaplace_valid_other src dst sel hsd hdd hsc hdc h1 h2
  · rw [muSobel_valid src dst hsd hdd hsc hdc,
        runKernel_empty src.width src.height dst.imagedata _ hwh]
  · rw [muPrewitt_valid src dst hsd hdd hsc hdc,
        runKernel_empty src.width src.height dst.imagedata _ hwh]

/-- Witness for muEdge_degenerate_noop on a 1x5 image. -/
theorem muEdge_degenerate_noop_witness :
    muLaplace img15src img15dst 1 = (muError.success, img15dst.imagedata) ∧
    muSobel img15src img15dst = (muError.success, img15dst.imagedata) ∧
    muPrewitt img15src img15dst = (muError.success, img15dst.imagedata) :=
  muEdge_degenerate_noop img15src img15dst 1 rfl rfl rfl rfl (Or.inl rfl)
